import Mathlib

/-!
Verification of the ftp-winmount filesystem translation layer.

Shallow embedding of the Python sources:
- src/pyftpdrive/filesystem.py  (FTPFileSystem translator callbacks)
- src/pyftpdrive/ftp_client.py  (FTPClient back-end, path normalizer)
- src/ftp_winmount/cache.py     (DirectoryCache / MetadataCache)
- src/pyftpdrive/cache.py       (unimplemented cache stubs)
- src/ftp_winmount/gdrive_path_cache.py (PathCache path normalizer)

Python strings are modelled as lists of characters, byte buffers as lists
of natural numbers, instants (time.time, FILETIME) as natural numbers, and
each back-end call a callback would issue is passed in as an explicit
oracle value of type Except PyExc together with an emitted operation trace.
-/

instance exceptDecEq {ε α : Type} [DecidableEq ε] [DecidableEq α] :
    DecidableEq (Except ε α) := fun x y =>
  match x, y with
  | .ok a, .ok b => if h : a = b then .isTrue (by simp [h]) else .isFalse (by simp [h])
  | .ok _, .error _ => .isFalse (by simp)
  | .error _, .ok _ => .isFalse (by simp)
  | .error e, .error f => if h : e = f then .isTrue (by simp [h]) else .isFalse (by simp [h])

/-! ## Python exception model

The translator catches concrete Python exception classes.  In Python,
FileNotFoundError, PermissionError, TimeoutError and FileExistsError are
all subclasses of OSError, and everything is a subclass of Exception; the
class-matching relation below reflects that hierarchy. -/

inductive PyExc
  | fileNotFoundError
  | permissionError
  | timeoutError
  | fileExistsError
  | osError (msg_not_empty : Bool)
deriving DecidableEq, Repr

inductive PyClass
  | cFileNotFound
  | cPermission
  | cTimeout
  | cFileExists
  | cOSError
  | cException
deriving DecidableEq, Repr

def PyClass.catches : PyClass → PyExc → Bool
  | .cFileNotFound, .fileNotFoundError => true
  | .cFileNotFound, _ => false
  | .cPermission, .permissionError => true
  | .cPermission, _ => false
  | .cTimeout, .timeoutError => true
  | .cTimeout, _ => false
  | .cFileExists, .fileExistsError => true
  | .cFileExists, _ => false
  | .cOSError, _ => true
  | .cException, _ => true

/-- NTStatus codes raised toward the host driver (winfspy exception types). -/
inductive NtStatus
  | objectNameNotFound
  | accessDenied
  | ioTimeout
  | objectNameCollision
  | directoryNotEmpty
deriving DecidableEq, Repr

/-- Back-end error kinds of the taxonomy in section 4.5 of the spec. -/
inductive ErrKind
  | notFound
  | accessDenied
  | timedOut
  | alreadyExists
  | notEmpty
deriving DecidableEq, Repr

/-- The Python exception FTPClient raises for each taxonomy kind
(ftp_client.py translates permanent FTP errors to these). -/
def ErrKind.toPyExc : ErrKind → PyExc
  | .notFound => .fileNotFoundError
  | .accessDenied => .permissionError
  | .timedOut => .timeoutError
  | .alreadyExists => .fileExistsError
  | .notEmpty => .osError true

/-- The fixed host-driver code of section 4.5 of the spec. -/
def specHostCode : ErrKind → NtStatus
  | .notFound => .objectNameNotFound
  | .accessDenied => .accessDenied
  | .timedOut => .ioTimeout
  | .alreadyExists => .objectNameCollision
  | .notEmpty => .directoryNotEmpty

/-- Outcome of a callback body when the back-end call it issued raised an
exception: either an NTStatus is raised to the host, the exception is
swallowed (logged / pass), the write callback falls back to an empty
buffer, or the exception escapes the callback unmapped. -/
inductive Outcome
  | status (s : NtStatus)
  | swallowed
  | fallbackEmptyBuffer
  | raw (e : PyExc)
deriving DecidableEq, Repr

/-- One except-clause: the class it matches and the action it takes. -/
def Handler := PyClass × (PyExc → Outcome)

/-- Run a chain of except-clauses the way Python does: first clause whose
class matches wins; with no match the exception escapes. -/
def runHandlers : List Handler → PyExc → Outcome
  | [], e => .raw e
  | (c, act) :: rest, e => if c.catches e then act e else runHandlers rest e

/-- Except chain of FTPFileSystem.open (filesystem.py lines 276-281);
read, read_directory and get_security_by_name use the identical chain. -/
def openHandlers : List Handler :=
  [(.cFileNotFound, fun _ => .status .objectNameNotFound),
   (.cPermission, fun _ => .status .accessDenied),
   (.cTimeout, fun _ => .status .ioTimeout)]

/-- Except chain of FTPFileSystem.flush (filesystem.py lines 447-452);
rename uses the same three clauses (lines 648-653). -/
def flushHandlers : List Handler :=
  [(.cPermission, fun _ => .status .accessDenied),
   (.cFileNotFound, fun _ => .status .objectNameNotFound),
   (.cTimeout, fun _ => .status .ioTimeout)]

/-- Except chain of FTPFileSystem.create (filesystem.py lines 562-567). -/
def createHandlers : List Handler :=
  [(.cFileExists, fun _ => .status .objectNameCollision),
   (.cPermission, fun _ => .status .accessDenied),
   (.cTimeout, fun _ => .status .ioTimeout)]

/-- Except chain around the lazy buffer materialization in
FTPFileSystem.write (filesystem.py lines 414-418): only
FileNotFoundError is caught, and it is answered with an empty buffer. -/
def writeMaterializeHandlers : List Handler :=
  [(.cFileNotFound, fun _ => .fallbackEmptyBuffer)]

/-- Except chain of the deletion block of FTPFileSystem.cleanup
(filesystem.py lines 597-604): FileNotFoundError is passed over, and the
OSError clause inspects the message for "not empty". -/
def cleanupDeleteHandlers : List Handler :=
  [(.cFileNotFound, fun _ => .swallowed),
   (.cPermission, fun _ => .status .accessDenied),
   (.cOSError, fun e =>
      match e with
      | .osError true => .status .directoryNotEmpty
      | _ => .status .accessDenied)]

/-- Except chain of the flush block of FTPFileSystem.cleanup
(filesystem.py lines 580-581): every exception is logged and swallowed. -/
def cleanupFlushHandlers : List Handler :=
  [(.cException, fun _ => .swallowed)]

/-- Translator callbacks named by claim C1. -/
inductive Callback
  | openCb
  | readCb
  | writeCb
  | flushCb
  | createCb
  | cleanupCb
  | renameCb
  | readDirectoryCb
  | getSecurityByNameCb
deriving DecidableEq, Repr

/-- The except chain each callback wraps around its back-end calls
(for cleanup, the deletion block; its flush block is cleanupFlushHandlers). -/
def callbackHandlers : Callback → List Handler
  | .openCb => openHandlers
  | .readCb => openHandlers
  | .writeCb => writeMaterializeHandlers
  | .flushCb => flushHandlers
  | .createCb => createHandlers
  | .cleanupCb => cleanupDeleteHandlers
  | .renameCb => flushHandlers
  | .readDirectoryCb => openHandlers
  | .getSecurityByNameCb => openHandlers

/-- What a callback does when its back-end call fails with a given
taxonomy kind. -/
def translatorOutcome (c : Callback) (e : ErrKind) : Outcome :=
  runHandlers (callbackHandlers c) e.toPyExc

/-! ## Path strings and the three normalizers -/

/-- Python strings, modelled as lists of characters. -/
abbrev PyStr := List Char

/-- Python str.replace applied to backslash and forward slash. -/
def replaceBackslashes (s : PyStr) : PyStr :=
  s.map (fun c => if c = '\\' then '/' else c)

/-- Python str.lstrip with a backslash argument. -/
def lstripBackslash (s : PyStr) : PyStr :=
  s.dropWhile (fun c => c = '\\')

/-- Python str.rstrip with a slash argument. -/
def rstripSlash (s : PyStr) : PyStr :=
  (s.reverse.dropWhile (fun c => c = '/')).reverse

/-- Python str.startswith with a slash argument. -/
def startsWithSlash (s : PyStr) : Bool :=
  match s with
  | c :: _ => c = '/'
  | [] => false

/-- Python str.endswith with a slash argument. -/
def endsWithSlash (s : PyStr) : Bool :=
  startsWithSlash s.reverse

/-- FTPFileSystem._to_ftp_path (filesystem.py lines 176-181). -/
def to_ftp_path (win_path : PyStr) : PyStr :=
  let path := replaceBackslashes (lstripBackslash win_path)
  if path = [] then ['/']
  else if startsWithSlash path then path
  else '/' :: path

/-- FTPClient._normalize_path (ftp_client.py lines 173-178). -/
def ftpclient_normalize_path (p : PyStr) : PyStr :=
  let path := replaceBackslashes p
  if startsWithSlash path then path else '/' :: path

/-- PathCache._normalize_path (gdrive_path_cache.py lines 153-161). -/
def pathcache_normalize_path (p : PyStr) : PyStr :=
  let path := replaceBackslashes p
  let path2 := if startsWithSlash path then path else '/' :: path
  if path2 ≠ ['/'] ∧ endsWithSlash path2 = true then rstripSlash path2 else path2

/-- A string free of backslashes, i.e. using only forward-slash
separators. -/
def noBackslash (s : PyStr) : Bool :=
  s.all (fun c => c ≠ '\\')

/-- Adjacent forward slashes; for a string with a leading slash and no
trailing slash this is exactly what produces an empty segment when
splitting on the separator. -/
def hasDoubleSlash : PyStr → Bool
  | '/' :: '/' :: _ => true
  | _ :: rest => hasDoubleSlash rest
  | [] => false

/-- Canonical form as claim C6 states it: leading slash, only
forward-slash separators, no trailing slash except for the root, and no
empty segments. -/
def claimedCanonical (s : PyStr) : Prop :=
  startsWithSlash s = true ∧ noBackslash s = true ∧
  (s = ['/'] ∨ endsWithSlash s = false) ∧ hasDoubleSlash s = false

instance (s : PyStr) : Decidable (claimedCanonical s) := by
  unfold claimedCanonical
  infer_instance

/-! ## TTL caches

ftp_winmount/cache.py: DirectoryCache and MetadataCache have literally
identical get / put / invalidate bodies, differing only in the payload
type, so they are modelled by one family of functions over an association
list keyed by strings; the instant now stands for time.time(). -/

structure CacheEntry (α : Type) where
  data : α
  expires_at : Nat
deriving DecidableEq, Repr

/-- The internal dict of a cache. -/
abbrev CacheMap (α : Type) := List (PyStr × CacheEntry α)

/-- Python dict lookup self._cache.get(path). -/
def lookupKey {α : Type} : CacheMap α → PyStr → Option (CacheEntry α)
  | [], _ => none
  | (k, e) :: rest, path => if k = path then some e else lookupKey rest path

/-- Python dict removal (del / pop with default). -/
def removeKey {α : Type} : CacheMap α → PyStr → CacheMap α
  | [], _ => []
  | (k, e) :: rest, path =>
      if k = path then removeKey rest path else (k, e) :: removeKey rest path

/-- DirectoryCache.get / MetadataCache.get (ftp_winmount/cache.py lines
26-44 and 105-123): return the payload unless missing or expired; an
expired entry is deleted in the same call.  Returns the answer and the
updated internal dict. -/
def cacheGet {α : Type} (m : CacheMap α) (path : PyStr) (now : Nat) :
    Option α × CacheMap α :=
  match lookupKey m path with
  | none => (none, m)
  | some entry =>
      if now ≥ entry.expires_at then (none, removeKey m path)
      else (some entry.data, m)

/-- DirectoryCache.put / MetadataCache.put: store with expiry now + ttl,
replacing any existing binding (dict assignment). -/
def cachePut {α : Type} (m : CacheMap α) (path : PyStr) (v : α)
    (now ttl : Nat) : CacheMap α :=
  (path, CacheEntry.mk v (now + ttl)) :: removeKey m path

/-- DirectoryCache.invalidate / MetadataCache.invalidate. -/
def cacheInvalidate {α : Type} (m : CacheMap α) (path : PyStr) : CacheMap α :=
  removeKey m path

/-- Everything before the last slash of a string that contains one
(Python rsplit with separator slash and one split, first component). -/
def beforeLastSlash (l : PyStr) : PyStr :=
  ((l.reverse.dropWhile (fun c => c ≠ '/')).tail).reverse

/-- DirectoryCache.invalidate_parent (ftp_winmount/cache.py lines 68-89):
normalize separators, strip trailing slashes, take everything before the
last slash (root when that is empty or when there is no slash), and
invalidate that parent key. -/
def cacheInvalidateParent {α : Type} (m : CacheMap α) (path : PyStr) :
    CacheMap α :=
  let normalized := rstripSlash (replaceBackslashes path)
  let parent :=
    if normalized.contains '/' then
      let p := beforeLastSlash normalized
      if p = [] then ['/'] else p
    else ['/']
  cacheInvalidate m parent

/-- pyftpdrive/cache.py DirectoryCache.get (lines 20-24): the body is a
bare raise NotImplementedError, modelled as an unconditional error. -/
def pyftpdriveDirectoryCacheGet {α : Type} (_m : CacheMap α) (_path : PyStr) :
    Except Unit (Option α) :=
  .error ()

/-! ## Open-file context and filesystem translator state -/

/-- OpenedContext (filesystem.py lines 132-154): per-handle state; the
constructor initializes all four timestamps from the one mtime argument,
with no buffer and a clean dirty flag. -/
structure OpenedContext where
  path : PyStr
  is_directory : Bool
  file_size : Nat
  attributes : Nat
  creation_time : Nat
  last_access_time : Nat
  last_write_time : Nat
  change_time : Nat
  buffer : Option (List Nat)
  dirty : Bool
deriving DecidableEq, Repr

/-- The OpenedContext constructor (filesystem.py lines 138-151). -/
def OpenedContext.init (path : PyStr) (is_directory : Bool) (file_size : Nat)
    (attributes : Nat) (mtime_filetime : Nat) : OpenedContext :=
  { path := path
    is_directory := is_directory
    file_size := file_size
    attributes := attributes
    creation_time := mtime_filetime
    last_access_time := mtime_filetime
    last_write_time := mtime_filetime
    change_time := mtime_filetime
    buffer := none
    dirty := false }

/-- Metadata payload the translator stores in the metadata cache. -/
structure MetaEntry where
  file_size : Nat
  attributes : Nat
  mtime_filetime : Nat
  is_dir : Bool
deriving DecidableEq, Repr

/-- Directory-listing payload the translator stores in the directory
cache (one element per child). -/
structure DirEntry where
  name : PyStr
  file_size : Nat
  allocation_size : Nat
  creation_time : Nat
  last_access_time : Nat
  last_write_time : Nat
  change_time : Nat
  file_attributes : Nat
  is_dir : Bool
deriving DecidableEq, Repr

/-- The two caches an FTPFileSystem instance owns. -/
structure FSState where
  dir_cache : CacheMap (List DirEntry)
  meta_cache : CacheMap MetaEntry
deriving DecidableEq, Repr

/-- Back-end operations a callback can issue, recorded as a trace. -/
inductive FtpOp
  | read_file_op (path : PyStr) (offset : Nat) (length : Option Nat)
  | write_file_op (path : PyStr) (data : List Nat) (offset : Nat)
  | get_file_info_op (path : PyStr)
  | delete_file_op (path : PyStr)
  | delete_dir_op (path : PyStr)
  | rename_op (old_path new_path : PyStr)
  | create_file_op (path : PyStr)
  | create_dir_op (path : PyStr)
  | list_dir_op (path : PyStr)
deriving DecidableEq, Repr

/-- An exception propagating out of a callback: either a raised NTStatus
or a back-end exception that escaped unmapped. -/
inductive Raised
  | status (s : NtStatus)
  | raw (e : PyExc)
deriving DecidableEq, Repr

/-- Apply an except chain to an escaping back-end exception, yielding what
the callback propagates (chains used here never swallow). -/
def translateRaise (handlers : List Handler) (e : PyExc) : Raised :=
  match runHandlers handlers e with
  | .status s => .status s
  | _ => .raw e

/-- WinFsp cleanup flag FspCleanupDelete (filesystem.py line 94). -/
def FspCleanupDelete : Nat := 0x01

/-! ## Translator callbacks (filesystem.py)

Each callback takes the results its back-end calls would return as
explicit Except values and reports the trace of back-end operations it
actually issued, so that "no back-end call" and call ordering are
provable facts. -/

/-- Semantics of BytesIO.seek(offset) followed by BytesIO.write(data):
seeking past the end zero-fills the gap, writing overwrites in place and
extends as needed; write returns the number of bytes written. -/
def bytesio_write (buf : List Nat) (offset : Nat) (data : List Nat) :
    List Nat × Nat :=
  let b := if offset > buf.length then
             buf ++ List.replicate (offset - buf.length) 0
           else buf
  (b.take offset ++ data ++ b.drop (offset + data.length), data.length)

/-- FTPFileSystem.read (filesystem.py lines 289-304).  At or past the
recorded size it answers empty bytes with no back-end call; otherwise the
length is clamped to the remaining bytes and read_file is called. -/
def FTPFileSystem.read (ctx : OpenedContext) (offset length : Nat)
    (read_file_result : Except PyExc (List Nat)) :
    Except Raised (List Nat) × List FtpOp :=
  if offset ≥ ctx.file_size then (.ok [], [])
  else
    let remaining := ctx.file_size - offset
    let actual_length := min length remaining
    let ops := [FtpOp.read_file_op ctx.path offset (some actual_length)]
    match read_file_result with
    | .ok data => (.ok data, ops)
    | .error e => (.error (translateRaise openHandlers e), ops)

/-- Lazy buffer materialization, duplicated verbatim in the source
between write (filesystem.py lines 412-420) and set_file_size (lines
477-486): with no buffer yet and a positive recorded size the existing
content is downloaded, a FileNotFoundError yields an empty buffer, and
any other exception escapes. -/
def materializeBuffer (ctx : OpenedContext)
    (read_file_result : Except PyExc (List Nat)) :
    Except PyExc (List Nat) × List FtpOp :=
  match ctx.buffer with
  | some b => (.ok b, [])
  | none =>
      if ctx.file_size > 0 then
        let ops := [FtpOp.read_file_op ctx.path 0 none]
        match read_file_result with
        | .ok existing_data => (.ok existing_data, ops)
        | .error .fileNotFoundError => (.ok [], ops)
        | .error e => (.error e, ops)
      else (.ok [], [])

/-- FTPFileSystem.write (filesystem.py lines 402-433).  The buffer is
materialized lazily, then the data is spliced in at the offset (or at the
recorded size when write_to_end_of_file is set), the size is raised when
the write went past it, and the handle is marked dirty.  Returns the
updated handle and the bytes-written count, plus the trace. -/
def FTPFileSystem.write (ctx : OpenedContext)
    (read_file_result : Except PyExc (List Nat))
    (buffer : List Nat) (offset : Nat)
    (write_to_end_of_file : Bool) :
    Except PyExc (OpenedContext × Nat) × List FtpOp :=
  match materializeBuffer ctx read_file_result with
  | (.error e, ops) => (.error e, ops)
  | (.ok buf, ops) =>
      let off := if write_to_end_of_file then ctx.file_size else offset
      let written := bytesio_write buf off buffer
      let bytes_written := written.2
      let new_size := off + bytes_written
      let fsize := if new_size > ctx.file_size then new_size else ctx.file_size
      (.ok ({ ctx with
                buffer := some written.1
                file_size := fsize
                dirty := true }, bytes_written), ops)

/-- FTPFileSystem.flush (filesystem.py lines 436-452).  A clean handle or
a missing buffer returns immediately with no back-end call and no state
change; otherwise the whole buffer is uploaded at offset zero, the
metadata cache entry is invalidated and the dirty flag cleared; on
failure the translated status is raised and nothing changes. -/
def FTPFileSystem.flush (ctx : OpenedContext) (st : FSState)
    (write_file_result : Except PyExc Nat) :
    Except Raised (OpenedContext × FSState) × List FtpOp :=
  if ctx.dirty = false ∨ ctx.buffer = none then (.ok (ctx, st), [])
  else
    let data := ctx.buffer.getD []
    let ops := [FtpOp.write_file_op ctx.path data 0]
    match write_file_result with
    | .ok _ =>
        (.ok ({ ctx with dirty := false },
              { st with meta_cache := cacheInvalidate st.meta_cache ctx.path }),
         ops)
    | .error e => (.error (translateRaise flushHandlers e), ops)

/-- FTPFileSystem.set_file_size (filesystem.py lines 462-503).  The
buffer is materialized like in write, then rebuilt by truncation or by
zero-extension to exactly the new size; the recorded size follows and the
handle is marked dirty. -/
def FTPFileSystem.set_file_size (ctx : OpenedContext)
    (read_file_result : Except PyExc (List Nat))
    (new_size : Nat) (_set_allocation_size : Bool) :
    Except PyExc OpenedContext × List FtpOp :=
  match materializeBuffer ctx read_file_result with
  | (.error e, ops) => (.error e, ops)
  | (.ok current_content, ops) =>
      let buf :=
        if new_size < current_content.length then
          current_content.take new_size
        else if new_size > current_content.length then
          current_content ++ List.replicate (new_size - current_content.length) 0
        else current_content
      (.ok { ctx with
               buffer := some buf
               file_size := new_size
               dirty := true }, ops)

/-- FTPFileSystem.overwrite (filesystem.py lines 505-523): reset the
buffer to empty, the size to zero, mark dirty, and replace the attribute
flags when asked to. -/
def FTPFileSystem.overwrite (ctx : OpenedContext) (file_attributes : Nat)
    (replace_file_attributes : Bool) (_allocation_size : Nat) :
    OpenedContext :=
  let ctx2 := { ctx with
                  buffer := some []
                  file_size := 0
                  dirty := true }
  if replace_file_attributes then { ctx2 with attributes := file_attributes }
  else ctx2

/-- FTPFileSystem.cleanup (filesystem.py lines 569-604).  First a dirty
buffer is uploaded with every exception swallowed (the dirty flag is
cleared and the metadata entry invalidated only on success); then, when
the delete flag is set, the file or directory is deleted and the parent
directory-cache entry and the metadata entry are invalidated, with the
deletion block guarded by its own except chain. -/
def FTPFileSystem.cleanup (ctx : OpenedContext) (st : FSState) (flags : Nat)
    (write_file_result : Except PyExc Nat)
    (delete_result : Except PyExc Unit) :
    Except Raised (OpenedContext × FSState) × List FtpOp :=
  let flushed : OpenedContext × FSState × List FtpOp :=
    if ctx.dirty = true ∧ ctx.buffer ≠ none then
      let data := ctx.buffer.getD []
      let ops := [FtpOp.write_file_op ctx.path data 0]
      match write_file_result with
      | .ok _ =>
          ({ ctx with dirty := false },
           { st with meta_cache := cacheInvalidate st.meta_cache ctx.path },
           ops)
      | .error _ => (ctx, st, ops)
    else (ctx, st, [])
  let ctx1 := flushed.1
  let st1 := flushed.2.1
  let ops1 := flushed.2.2
  if flags &&& FspCleanupDelete = 0 then (.ok (ctx1, st1), ops1)
  else
    let deleteOp :=
      if ctx1.is_directory then FtpOp.delete_dir_op ctx1.path
      else FtpOp.delete_file_op ctx1.path
    let ops2 := ops1 ++ [deleteOp]
    match delete_result with
    | .ok _ =>
        let st2 :=
          if ctx1.is_directory then
            { st1 with dir_cache := cacheInvalidate st1.dir_cache ctx1.path }
          else st1
        let st3 :=
          { st2 with
              dir_cache := cacheInvalidateParent st2.dir_cache ctx1.path
              meta_cache := cacheInvalidate st2.meta_cache ctx1.path }
        (.ok (ctx1, st3), ops2)
    | .error e =>
        match runHandlers cleanupDeleteHandlers e with
        | .swallowed => (.ok (ctx1, st1), ops2)
        | .status s => (.error (.status s), ops2)
        | _ => (.error (.raw e), ops2)

/-- FTPFileSystem.rename (filesystem.py lines 606-653).  Both names are
converted to FTP paths; with replace_if_exists false a successful
get_file_info pre-check on the destination raises a name collision and
only its FileNotFoundError is passed over; with replace_if_exists true an
existing destination is deleted first.  Then the back-end rename runs,
the four cache entries are invalidated (plus the old directory listing
for a directory handle) and the handle path is updated.  Back-end errors
go through the outer except chain. -/
def FTPFileSystem.rename (ctx : OpenedContext) (st : FSState)
    (file_name new_file_name : PyStr)
    (dest_info_result : Except PyExc MetaEntry)
    (dest_delete_result : Except PyExc Unit)
    (rename_result : Except PyExc Unit)
    (replace_if_exists : Bool) :
    Except Raised (OpenedContext × FSState) × List FtpOp :=
  let old_ftp_path := to_ftp_path file_name
  let new_ftp_path := to_ftp_path new_file_name
  let precheck : Except Raised (List FtpOp) :=
    if replace_if_exists = false then
      match dest_info_result with
      | .ok _ => .error (.status .objectNameCollision)
      | .error .fileNotFoundError => .ok [FtpOp.get_file_info_op new_ftp_path]
      | .error e => .error (translateRaise flushHandlers e)
    else .ok []
  match precheck with
  | .error r => (.error r, [FtpOp.get_file_info_op new_ftp_path])
  | .ok ops0 =>
      let deleted : Except Raised (List FtpOp) :=
        if replace_if_exists = true then
          match dest_info_result with
          | .ok stats =>
              let dOp :=
                if stats.is_dir then FtpOp.delete_dir_op new_ftp_path
                else FtpOp.delete_file_op new_ftp_path
              match dest_delete_result with
              | .ok _ => .ok (ops0 ++ [FtpOp.get_file_info_op new_ftp_path, dOp])
              | .error e => .error (translateRaise flushHandlers e)
          | .error .fileNotFoundError =>
              .ok (ops0 ++ [FtpOp.get_file_info_op new_ftp_path])
          | .error e => .error (translateRaise flushHandlers e)
        else .ok ops0
      match deleted with
      | .error r => (.error r, ops0 ++ [FtpOp.get_file_info_op new_ftp_path])
      | .ok ops1 =>
          let ops2 := ops1 ++ [FtpOp.rename_op old_ftp_path new_ftp_path]
          match rename_result with
          | .error e => (.error (translateRaise flushHandlers e), ops2)
          | .ok _ =>
              let dir1 := cacheInvalidateParent st.dir_cache old_ftp_path
              let dir2 := cacheInvalidateParent dir1 new_ftp_path
              let meta1 := cacheInvalidate st.meta_cache old_ftp_path
              let meta2 := cacheInvalidate meta1 new_ftp_path
              let dir3 :=
                if ctx.is_directory then cacheInvalidate dir2 old_ftp_path
                else dir2
              (.ok ({ ctx with path := new_ftp_path },
                    { dir_cache := dir3, meta_cache := meta2 }), ops2)

/-! ## FTP client write path (ftp_client.py) -/

/-- Wire-level FTP transfers issued by FTPClient.write_file. -/
inductive FtpWire
  | retr (path : PyStr)
  | stor (path : PyStr) (content : List Nat)
deriving DecidableEq, Repr

/-- Python slice assignment existing[offset : offset + len(data)] = data
on a bytearray whose length is at least offset. -/
def setSlice (l : List Nat) (offset : Nat) (data : List Nat) : List Nat :=
  l.take offset ++ data ++ l.drop (offset + data.length)

/-- FTPClient.write_file (ftp_client.py lines 596-642).  Offset zero
stores the data directly; a nonzero offset downloads the existing
content (a permanent FTP error means a missing file and yields an empty
bytearray), zero-extends it up to the offset when needed, splices the
data in, and stores the whole result.  Returns the bytes-written count
and the wire trace. -/
def FTPClient.write_file (path : PyStr) (data : List Nat) (offset : Nat)
    (retr_result : Except Unit (List Nat)) : Nat × List FtpWire :=
  if offset = 0 then
    (data.length, [FtpWire.stor path data])
  else
    let existing_data :=
      match retr_result with
      | .ok d => d
      | .error _ => []
    let extended :=
      if offset > existing_data.length then
        existing_data ++ List.replicate (offset - existing_data.length) 0
      else existing_data
    let final := setSlice extended offset data
    (data.length, [FtpWire.retr path, FtpWire.stor path final])

/-- The content the lazy materialization starts from, by its three
sources: the existing buffer, the downloaded bytes, or the empty
fallback. -/
def startingBuffer (ctx : OpenedContext) (rr : Except PyExc (List Nat)) :
    List Nat :=
  match ctx.buffer with
  | some b => b
  | none =>
      if ctx.file_size > 0 then
        match rr with
        | .ok d => d
        | .error _ => []
      else []

/-- The invariant of claim C5 on an open handle: a dirty handle has a
buffer whose length is the recorded size. -/
def handleInvariant (ctx : OpenedContext) : Prop :=
  ctx.dirty = true →
    ctx.buffer.isSome = true ∧ ctx.file_size = (ctx.buffer.getD []).length

instance (ctx : OpenedContext) : Decidable (handleInvariant ctx) := by
  unfold handleInvariant; infer_instance

/-! ## Claim C1: error mapping in the translator callbacks -/

/-- C1 counterexample: the claim says no callback lets a raw back-end
error kind escape unmapped, but the lazy materialization inside the write
callback only catches FileNotFoundError, so an AccessDenied back-end
error (PermissionError) escapes the write callback as a raw Python
exception instead of the host-driver access-denied status; the full write
embedding at a concrete handle shows the same escape. -/
theorem C1_error_mapping_cex :
    translatorOutcome .writeCb .accessDenied = .raw .permissionError ∧
    translatorOutcome .writeCb .accessDenied ≠ .status (specHostCode .accessDenied) ∧
    (FTPFileSystem.write (OpenedContext.init ['/', 'f'] false 10 128 0)
        (.error .permissionError) [1] 0 false).1 = .error .permissionError := by
  refine ⟨rfl, by decide, rfl⟩

/-- C1 (amended): the callbacks open, read, flush, rename, read_directory
and get_security_by_name map NotFound, AccessDenied and TimedOut to the
fixed host-driver codes of section 4.5; create maps AlreadyExists,
AccessDenied and TimedOut to the fixed codes but lets NotFound escape;
the deletion block of cleanup maps NotFound to silence, AccessDenied to
access-denied and NotEmpty to directory-not-empty, but maps TimedOut and
AlreadyExists to access-denied through its OSError clause; the write
callback maps NotFound to an empty-buffer fallback and lets AccessDenied
and TimedOut escape unmapped; the flush block of cleanup swallows every
back-end exception. -/
theorem C1_error_mapping_amended :
    (∀ c ∈ [Callback.openCb, .readCb, .flushCb, .renameCb,
            .readDirectoryCb, .getSecurityByNameCb],
       ∀ e ∈ [ErrKind.notFound, .accessDenied, .timedOut],
         translatorOutcome c e = .status (specHostCode e)) ∧
    translatorOutcome .createCb .alreadyExists = .status (specHostCode .alreadyExists) ∧
    translatorOutcome .createCb .accessDenied = .status (specHostCode .accessDenied) ∧
    translatorOutcome .createCb .timedOut = .status (specHostCode .timedOut) ∧
    translatorOutcome .createCb .notFound = .raw .fileNotFoundError ∧
    translatorOutcome .cleanupCb .notFound = .swallowed ∧
    translatorOutcome .cleanupCb .accessDenied = .status .accessDenied ∧
    translatorOutcome .cleanupCb .notEmpty = .status .directoryNotEmpty ∧
    translatorOutcome .cleanupCb .timedOut = .status .accessDenied ∧
    translatorOutcome .cleanupCb .alreadyExists = .status .accessDenied ∧
    translatorOutcome .writeCb .notFound = .fallbackEmptyBuffer ∧
    translatorOutcome .writeCb .accessDenied = .raw .permissionError ∧
    translatorOutcome .writeCb .timedOut = .raw .timeoutError ∧
    (∀ e ∈ [PyExc.fileNotFoundError, .permissionError, .timeoutError,
            .fileExistsError, .osError true, .osError false],
       runHandlers cleanupFlushHandlers e = .swallowed) := by
  decide

/-- C1 amended witness: the open callback at a NotFound back-end error. -/
theorem C1_error_mapping_amended_witness :
    translatorOutcome .openCb .notFound = .status (specHostCode .notFound) :=
  C1_error_mapping_amended.1 .openCb (by decide) .notFound (by decide)

/-! ## Claim C3: read boundary behavior -/

/-- C3: a read at or past the recorded size returns empty bytes with no
back-end call, and a read that starts inside the file but runs past its
end passes the back-end a length clamped to size minus offset. -/
theorem C3_read_clamped (ctx : OpenedContext) (offset length : Nat)
    (rr : Except PyExc (List Nat)) :
    (offset ≥ ctx.file_size →
       FTPFileSystem.read ctx offset length rr = (.ok [], [])) ∧
    (offset < ctx.file_size → ctx.file_size < offset + length →
       (FTPFileSystem.read ctx offset length rr).2 =
         [FtpOp.read_file_op ctx.path offset (some (ctx.file_size - offset))]) := by
  constructor
  · intro h
    unfold FTPFileSystem.read
    rw [if_pos h]
  · intro h1 h2
    have hge : ¬ offset ≥ ctx.file_size := by omega
    have hmin : min length (ctx.file_size - offset) = ctx.file_size - offset := by
      omega
    unfold FTPFileSystem.read
    rw [if_neg hge]
    cases rr <;> simp [hmin]

/-- C3 witness at a 10-byte handle: a read at offset 10 returns empty
with no back-end call, and a read of 100 bytes at offset 4 is clamped to
6 bytes. -/
theorem C3_read_clamped_witness :
    FTPFileSystem.read (OpenedContext.init ['/', 'a'] false 10 128 0) 10 5 (.ok [])
      = (.ok [], []) ∧
    (FTPFileSystem.read (OpenedContext.init ['/', 'a'] false 10 128 0) 4 100 (.ok [])).2
      = [FtpOp.read_file_op ['/', 'a'] 4 (some 6)] :=
  ⟨(C3_read_clamped (OpenedContext.init ['/', 'a'] false 10 128 0) 10 5 (.ok [])).1
     (by decide),
   (C3_read_clamped (OpenedContext.init ['/', 'a'] false 10 128 0) 4 100 (.ok [])).2
     (by decide) (by decide)⟩

/-! ## Claim C4: FTP read-modify-write at a nonzero offset -/

/-- C4: a write_file at a nonzero offset on an existing file issues
exactly one retrieval followed by one upload, the uploaded content is the
existing content zero-extended to the offset when shorter, with the data
spliced in at the offset, and the call returns the length of the data. -/
theorem C4_write_file_rmw (path : PyStr) (E data : List Nat) (offset : Nat)
    (hoff : 0 < offset) :
    FTPClient.write_file path data offset (.ok E) =
      (data.length,
       [FtpWire.retr path,
        FtpWire.stor path
          (let ext :=
             if offset > E.length then E ++ List.replicate (offset - E.length) 0
             else E
           ext.take offset ++ data ++ ext.drop (offset + data.length))]) := by
  have h0 : ¬ offset = 0 := by omega
  unfold FTPClient.write_file setSlice
  rw [if_neg h0]

/-- C4 witness: the literal scenario of the spec, a two-byte write at
offset 6 into a 16-byte file. -/
theorem C4_write_file_rmw_witness :
    FTPClient.write_file ['/', 'a'] [170, 187] 6
        (.ok [0, 1, 2, 3, 4, 5, 6, 7, 8, 9, 10, 11, 12, 13, 14, 15]) =
      (2, [FtpWire.retr ['/', 'a'],
           FtpWire.stor ['/', 'a']
             [0, 1, 2, 3, 4, 5, 170, 187, 8, 9, 10, 11, 12, 13, 14, 15]]) := by
  rw [C4_write_file_rmw ['/', 'a'] [0, 1, 2, 3, 4, 5, 6, 7, 8, 9, 10, 11, 12, 13, 14, 15]
        [170, 187] 6 (by decide)]
  decide

/-! ## Claim C7: rename collision pre-check -/

/-- C7: with replace_if_exists false the rename callback first calls
get_file_info on the destination; a successful pre-check raises the
name-collision status with the back-end rename never issued, a pre-check
failing with NotFound lets the back-end rename proceed, and a pre-check
failing with any other error also leaves the back-end rename unissued. -/
theorem C7_rename_precheck (ctx : OpenedContext) (st : FSState)
    (file_name new_file_name : PyStr)
    (dinfo : Except PyExc MetaEntry) (ddel rres : Except PyExc Unit) :
    (∀ stats, dinfo = .ok stats →
       FTPFileSystem.rename ctx st file_name new_file_name dinfo ddel rres false =
         (.error (.status .objectNameCollision),
          [FtpOp.get_file_info_op (to_ftp_path new_file_name)])) ∧
    (dinfo = .error .fileNotFoundError →
       (FTPFileSystem.rename ctx st file_name new_file_name dinfo ddel rres false).2 =
         [FtpOp.get_file_info_op (to_ftp_path new_file_name),
          FtpOp.rename_op (to_ftp_path file_name) (to_ftp_path new_file_name)]) ∧
    (∀ e, e ≠ PyExc.fileNotFoundError → dinfo = .error e →
       (FTPFileSystem.rename ctx st file_name new_file_name dinfo ddel rres false).2 =
         [FtpOp.get_file_info_op (to_ftp_path new_file_name)]) := by
  refine ⟨?_, ?_, ?_⟩
  · intro stats h
    subst h
    unfold FTPFileSystem.rename
    simp
  · intro h
    subst h
    unfold FTPFileSystem.rename
    cases rres <;> simp
  · intro e he h
    subst h
    unfold FTPFileSystem.rename
    cases e with
    | fileNotFoundError => exact absurd rfl he
    | permissionError => simp
    | timeoutError => simp
    | fileExistsError => simp
    | osError b => simp

/-- C7 witness at concrete inputs: a successful destination pre-check
reports a collision without renaming, and a NotFound pre-check lets the
rename proceed. -/
theorem C7_rename_precheck_witness :
    FTPFileSystem.rename (OpenedContext.init ['/', 'x'] false 3 128 0)
        (FSState.mk [] []) ['\\', 'x'] ['\\', 'y']
        (.ok (MetaEntry.mk 3 128 0 false)) (.ok ()) (.ok ()) false =
      (.error (.status .objectNameCollision),
       [FtpOp.get_file_info_op ['/', 'y']]) ∧
    (FTPFileSystem.rename (OpenedContext.init ['/', 'x'] false 3 128 0)
        (FSState.mk [] []) ['\\', 'x'] ['\\', 'y']
        (.error .fileNotFoundError) (.ok ()) (.ok ()) false).2 =
      [FtpOp.get_file_info_op ['/', 'y'], FtpOp.rename_op ['/', 'x'] ['/', 'y']] := by
  constructor
  · have h := (C7_rename_precheck (OpenedContext.init ['/', 'x'] false 3 128 0)
      (FSState.mk [] []) ['\\', 'x'] ['\\', 'y']
      (.ok (MetaEntry.mk 3 128 0 false)) (.ok ()) (.ok ())).1
      (MetaEntry.mk 3 128 0 false) rfl
    rw [h]
    decide
  · have h := (C7_rename_precheck (OpenedContext.init ['/', 'x'] false 3 128 0)
      (FSState.mk [] []) ['\\', 'x'] ['\\', 'y']
      (.error .fileNotFoundError) (.ok ()) (.ok ())).2.1 rfl
    rw [h]
    decide

/-! ## Claim C8: cleanup swallows flush failures -/

/-- C8: on a dirty handle with the delete flag set, a flush upload that
fails with any back-end error is swallowed: cleanup still issues the
deletion (delete_file for files, delete_dir plus the listing invalidation
for directories) and performs the parent directory-cache and metadata
invalidations, returning success. -/
theorem C8_cleanup_swallows_flush_failure (ctx : OpenedContext) (st : FSState)
    (flags : Nat) (e : PyExc) (b : List Nat)
    (hd : ctx.dirty = true) (hb : ctx.buffer = some b)
    (hf : flags &&& FspCleanupDelete ≠ 0) :
    (ctx.is_directory = false →
       FTPFileSystem.cleanup ctx st flags (.error e) (.ok ()) =
         (.ok (ctx,
               { dir_cache := cacheInvalidateParent st.dir_cache ctx.path
                 meta_cache := cacheInvalidate st.meta_cache ctx.path }),
          [FtpOp.write_file_op ctx.path b 0, FtpOp.delete_file_op ctx.path])) ∧
    (ctx.is_directory = true →
       FTPFileSystem.cleanup ctx st flags (.error e) (.ok ()) =
         (.ok (ctx,
               { dir_cache := cacheInvalidateParent
                                (cacheInvalidate st.dir_cache ctx.path) ctx.path
                 meta_cache := cacheInvalidate st.meta_cache ctx.path }),
          [FtpOp.write_file_op ctx.path b 0, FtpOp.delete_dir_op ctx.path])) := by
  constructor
  · intro hdir
    unfold FTPFileSystem.cleanup
    simp [hd, hb, hf, hdir]
  · intro hdir
    unfold FTPFileSystem.cleanup
    simp [hd, hb, hf, hdir]

/-- C8 witness: a concrete dirty one-byte handle whose flush times out
while the delete-on-close flag is set. -/
theorem C8_cleanup_swallows_flush_failure_witness :
    FTPFileSystem.cleanup
        { OpenedContext.init ['/', 'f'] false 1 128 0 with
            buffer := some [7], dirty := true }
        (FSState.mk [] [(['/', 'f'], CacheEntry.mk (MetaEntry.mk 1 128 0 false) 99)])
        1 (.error .timeoutError) (.ok ()) =
      (.ok ({ OpenedContext.init ['/', 'f'] false 1 128 0 with
                buffer := some [7], dirty := true },
            { dir_cache := [], meta_cache := [] }),
       [FtpOp.write_file_op ['/', 'f'] [7] 0, FtpOp.delete_file_op ['/', 'f']]) := by
  have h := (C8_cleanup_swallows_flush_failure
    { OpenedContext.init ['/', 'f'] false 1 128 0 with buffer := some [7], dirty := true }
    (FSState.mk [] [(['/', 'f'], CacheEntry.mk (MetaEntry.mk 1 128 0 false) 99)])
    1 .timeoutError [7] rfl rfl (by decide)).1 rfl
  rw [h]
  decide

/-! ## Claim C10: flush frame condition and idempotence -/

/-- C10: a flush on a handle that is clean or has no buffer issues no
back-end call and leaves the handle and both caches unchanged; and after
any flush that returned success, an immediately following flush is such a
no-op. -/
theorem C10_flush_noop_idempotent (ctx ctx2 : OpenedContext)
    (st st2 : FSState) (wr wr2 : Except PyExc Nat) (ops : List FtpOp) :
    ((ctx.dirty = false ∨ ctx.buffer = none) →
       FTPFileSystem.flush ctx st wr = (.ok (ctx, st), [])) ∧
    (FTPFileSystem.flush ctx st wr = (.ok (ctx2, st2), ops) →
       FTPFileSystem.flush ctx2 st2 wr2 = (.ok (ctx2, st2), [])) := by
  constructor
  · intro h
    unfold FTPFileSystem.flush
    rw [if_pos h]
  · intro h
    unfold FTPFileSystem.flush at h ⊢
    by_cases hc : ctx.dirty = false ∨ ctx.buffer = none
    · rw [if_pos hc] at h
      replace h : ((Except.ok (ctx, st) : Except Raised (OpenedContext × FSState)),
          ([] : List FtpOp)) = (.ok (ctx2, st2), ops) := h
      simp only [Prod.mk.injEq, Except.ok.injEq] at h
      obtain ⟨⟨h1, h2⟩, _⟩ := h
      rw [← h1, ← h2, if_pos hc]
    · rw [if_neg hc] at h
      cases wr with
      | error e =>
          replace h : ((Except.error (translateRaise flushHandlers e) :
              Except Raised (OpenedContext × FSState)),
              [FtpOp.write_file_op ctx.path (ctx.buffer.getD []) 0]) =
              (.ok (ctx2, st2), ops) := h
          simp only [Prod.mk.injEq] at h
          exact absurd h.1 (by simp)
      | ok n =>
          replace h : ((Except.ok ({ ctx with dirty := false },
              { st with meta_cache := cacheInvalidate st.meta_cache ctx.path }) :
              Except Raised (OpenedContext × FSState)),
              [FtpOp.write_file_op ctx.path (ctx.buffer.getD []) 0]) =
              (.ok (ctx2, st2), ops) := h
          simp only [Prod.mk.injEq, Except.ok.injEq] at h
          obtain ⟨⟨h1, h2⟩, _⟩ := h
          rw [← h1, ← h2]
          rw [if_pos (Or.inl rfl)]

/-- C10 witness: flushing a clean handle changes nothing, and a second
flush after a successful dirty flush is a no-op. -/
theorem C10_flush_noop_idempotent_witness :
    FTPFileSystem.flush (OpenedContext.init ['/', 'f'] false 2 128 0)
        (FSState.mk [] []) (.ok 2) =
      (.ok (OpenedContext.init ['/', 'f'] false 2 128 0, FSState.mk [] []), []) ∧
    FTPFileSystem.flush
        { OpenedContext.init ['/', 'f'] false 2 128 0 with
            buffer := some [1, 2], dirty := false }
        (FSState.mk [] []) (.ok 2) =
      (.ok ({ OpenedContext.init ['/', 'f'] false 2 128 0 with
                buffer := some [1, 2], dirty := false },
            FSState.mk [] []), []) := by
  constructor
  · exact (C10_flush_noop_idempotent (OpenedContext.init ['/', 'f'] false 2 128 0)
      (OpenedContext.init ['/', 'f'] false 2 128 0) (FSState.mk [] [])
      (FSState.mk [] []) (.ok 2) (.ok 2) []).1 (Or.inl rfl)
  · exact (C10_flush_noop_idempotent
      { OpenedContext.init ['/', 'f'] false 2 128 0 with
          buffer := some [1, 2], dirty := true }
      { OpenedContext.init ['/', 'f'] false 2 128 0 with
          buffer := some [1, 2], dirty := false }
      (FSState.mk [] [(['/', 'f'], CacheEntry.mk (MetaEntry.mk 2 128 0 false) 9)])
      (FSState.mk [] []) (.ok 2) (.ok 2)
      [FtpOp.write_file_op ['/', 'f'] [1, 2] 0]).2 (by decide)

/-! ## Claim C2: TTL cache get contract -/

/-- C2: for the implemented caches (ftp_winmount), get answers the stored
payload exactly when an entry is present and the instant is strictly
before its expiry; a present but expired entry is deleted during the same
get; a missing key leaves the map untouched.  The pyftpdrive directory
cache named by the same claim instead raises NotImplementedError on every
get, shown here at a concrete key. -/
theorem C2_cache_get_contract :
    (∀ (α : Type) (m : CacheMap α) (path : PyStr) (now : Nat),
       ((cacheGet m path now).1.isSome = true ↔
          ∃ e, lookupKey m path = some e ∧ now < e.expires_at) ∧
       (∀ e, lookupKey m path = some e → now < e.expires_at →
          cacheGet m path now = (some e.data, m)) ∧
       (∀ e, lookupKey m path = some e → e.expires_at ≤ now →
          cacheGet m path now = (none, removeKey m path)) ∧
       (lookupKey m path = none → cacheGet m path now = (none, m))) ∧
    pyftpdriveDirectoryCacheGet ([] : CacheMap (List DirEntry)) ['/', 'd'] =
      .error () := by
  refine ⟨?_, rfl⟩
  intro α m path now
  refine ⟨?_, ?_, ?_, ?_⟩
  · unfold cacheGet
    cases hl : lookupKey m path with
    | none => simp
    | some e =>
        show (if now ≥ e.expires_at then ((none : Option α), removeKey m path)
              else (some e.data, m)).1.isSome = true ↔
             ∃ e2, some e = some e2 ∧ now < e2.expires_at
        by_cases hex : now ≥ e.expires_at
        · rw [if_pos hex]
          constructor
          · intro hfalse
            simp at hfalse
          · rintro ⟨e2, he2, hlt⟩
            injection he2 with he2
            rw [← he2] at hlt
            exact absurd hlt (by omega)
        · rw [if_neg hex]
          constructor
          · intro _
            exact ⟨e, rfl, by omega⟩
          · intro _
            simp
  · intro e he hlt
    unfold cacheGet
    rw [he]
    show (if now ≥ e.expires_at then ((none : Option α), removeKey m path)
          else (some e.data, m)) = (some e.data, m)
    rw [if_neg (by omega)]
  · intro e he hge
    unfold cacheGet
    rw [he]
    show (if now ≥ e.expires_at then ((none : Option α), removeKey m path)
          else (some e.data, m)) = (none, removeKey m path)
    rw [if_pos (by omega)]
  · intro hn
    unfold cacheGet
    rw [hn]

/-- C2 witness: a fresh entry is returned before its expiry, and an
expired entry is removed by the same get. -/
theorem C2_cache_get_contract_witness :
    cacheGet [(['/', 'd'], CacheEntry.mk 7 10)] ['/', 'd'] 3 =
      (some 7, [(['/', 'd'], CacheEntry.mk 7 10)]) ∧
    cacheGet [(['/', 'd'], CacheEntry.mk 7 10)] ['/', 'd'] 10 = (none, []) := by
  constructor
  · exact (C2_cache_get_contract.1 Nat [(['/', 'd'], CacheEntry.mk 7 10)]
      ['/', 'd'] 3).2.1 (CacheEntry.mk 7 10) (by decide) (by decide)
  · have h := (C2_cache_get_contract.1 Nat [(['/', 'd'], CacheEntry.mk 7 10)]
      ['/', 'd'] 10).2.2.1 (CacheEntry.mk 7 10) (by decide) (by decide)
    rw [h]
    decide

/-! ## Claim C5: dirty-handle invariant -/

/-- Length of the buffer after a BytesIO seek plus write. -/
theorem bytesio_write_length (buf : List Nat) (offset : Nat) (data : List Nat) :
    ((bytesio_write buf offset data).1).length = max (offset + data.length) buf.length := by
  unfold bytesio_write
  by_cases h : offset > buf.length
  · rw [if_pos h]
    simp
    omega
  · rw [if_neg h]
    simp
    omega

/-- A successful materialization yields exactly the starting buffer. -/
theorem materializeBuffer_ok (ctx : OpenedContext)
    (rr : Except PyExc (List Nat)) (buf : List Nat) (ops : List FtpOp)
    (h : materializeBuffer ctx rr = (.ok buf, ops)) :
    buf = startingBuffer ctx rr := by
  unfold materializeBuffer at h
  unfold startingBuffer
  cases hb : ctx.buffer with
  | some b =>
      rw [hb] at h
      replace h : ((Except.ok b : Except PyExc (List Nat)), ([] : List FtpOp)) =
          (.ok buf, ops) := h
      simp only [Prod.mk.injEq, Except.ok.injEq] at h
      exact h.1.symm
  | none =>
      rw [hb] at h
      by_cases hfs : ctx.file_size > 0
      · rw [if_pos hfs] at h
        rw [if_pos hfs]
        cases rr with
        | ok d =>
            replace h : ((Except.ok d : Except PyExc (List Nat)),
                [FtpOp.read_file_op ctx.path 0 none]) = (.ok buf, ops) := h
            simp only [Prod.mk.injEq, Except.ok.injEq] at h
            exact h.1.symm
        | error e =>
            cases e with
            | fileNotFoundError =>
                replace h : ((Except.ok [] : Except PyExc (List Nat)),
                    [FtpOp.read_file_op ctx.path 0 none]) = (.ok buf, ops) := h
                simp only [Prod.mk.injEq, Except.ok.injEq] at h
                exact h.1.symm
            | permissionError => simp at h
            | timeoutError => simp at h
            | fileExistsError => simp at h
            | osError b => simp at h
      · rw [if_neg hfs] at h
        rw [if_neg hfs]
        replace h : ((Except.ok [] : Except PyExc (List Nat)), ([] : List FtpOp)) =
            (.ok buf, ops) := h
        simp only [Prod.mk.injEq, Except.ok.injEq] at h
        exact h.1.symm

/-- C5 counterexample: on a clean handle of recorded size 10 with no
buffer, a write whose materializing download reports NotFound falls back
to an empty buffer; after writing one byte the handle is dirty with a
one-byte buffer but still records size 10, violating the invariant, so
write does not preserve it. -/
theorem C5_handle_invariant_cex :
    (FTPFileSystem.write (OpenedContext.init ['/', 'f'] false 10 128 0)
        (.error .fileNotFoundError) [1] 0 false).1 =
      .ok ({ OpenedContext.init ['/', 'f'] false 10 128 0 with
               buffer := some [1], dirty := true }, 1) ∧
    ¬ handleInvariant
        { OpenedContext.init ['/', 'f'] false 10 128 0 with
            buffer := some [1], dirty := true } := by
  constructor
  · rfl
  · decide

/-- C5 (amended): the invariant that a dirty handle has a buffer whose
length equals the recorded size is preserved unconditionally by
set_file_size and overwrite, is preserved by flush, and is preserved by
write exactly when the content its lazy materialization starts from has
length equal to the recorded size (as with an already consistent buffer,
or a download returning exactly size bytes); the NotFound fallback on a
positive recorded size, or a download of a different length, can break
it. -/
theorem C5_handle_invariant_amended :
    (∀ (ctx : OpenedContext) (rr : Except PyExc (List Nat)) (ns : Nat)
       (sa : Bool) (ctx2 : OpenedContext) (ops : List FtpOp),
       FTPFileSystem.set_file_size ctx rr ns sa = (.ok ctx2, ops) →
       handleInvariant ctx2) ∧
    (∀ (ctx : OpenedContext) (fa : Nat) (rfa : Bool) (asz : Nat),
       handleInvariant (FTPFileSystem.overwrite ctx fa rfa asz)) ∧
    (∀ (ctx : OpenedContext) (st : FSState) (wr : Except PyExc Nat)
       (ctx2 : OpenedContext) (st2 : FSState) (ops : List FtpOp),
       FTPFileSystem.flush ctx st wr = (.ok (ctx2, st2), ops) →
       handleInvariant ctx → handleInvariant ctx2) ∧
    (∀ (ctx : OpenedContext) (rr : Except PyExc (List Nat))
       (data : List Nat) (off : Nat) (wte : Bool) (ctx2 : OpenedContext)
       (n : Nat) (ops : List FtpOp),
       FTPFileSystem.write ctx rr data off wte = (.ok (ctx2, n), ops) →
       (startingBuffer ctx rr).length = ctx.file_size →
       handleInvariant ctx2) := by
  refine ⟨?_, ?_, ?_, ?_⟩
  · intro ctx rr ns sa ctx2 ops h
    unfold FTPFileSystem.set_file_size at h
    cases hm : materializeBuffer ctx rr with
    | mk fst snd =>
        rw [hm] at h
        cases fst with
        | error e =>
            replace h : ((Except.error e : Except PyExc OpenedContext), snd) =
                (.ok ctx2, ops) := h
            simp only [Prod.mk.injEq] at h
            exact absurd h.1 (by simp)
        | ok current_content =>
            replace h : ((Except.ok
                ({ ctx with
                     buffer := some
                       (if ns < current_content.length then
                          current_content.take ns
                        else if ns > current_content.length then
                          current_content ++
                            List.replicate (ns - current_content.length) 0
                        else current_content)
                     file_size := ns
                     dirty := true }) : Except PyExc OpenedContext), snd) =
                (.ok ctx2, ops) := h
            simp only [Prod.mk.injEq, Except.ok.injEq] at h
            rw [← h.1]
            intro _
            refine ⟨rfl, ?_⟩
            simp only [Option.getD_some]
            by_cases h1 : ns < current_content.length
            · rw [if_pos h1]
              simp
              omega
            · rw [if_neg h1]
              by_cases h2 : ns > current_content.length
              · rw [if_pos h2]
                simp
                omega
              · rw [if_neg h2]
                omega
  · intro ctx fa rfa asz
    unfold FTPFileSystem.overwrite
    by_cases hr : rfa = true
    · rw [if_pos hr]
      intro _
      exact ⟨rfl, rfl⟩
    · rw [if_neg hr]
      intro _
      exact ⟨rfl, rfl⟩
  · intro ctx st wr ctx2 st2 ops h hinv
    unfold FTPFileSystem.flush at h
    by_cases hc : ctx.dirty = false ∨ ctx.buffer = none
    · rw [if_pos hc] at h
      replace h : ((Except.ok (ctx, st) : Except Raised (OpenedContext × FSState)),
          ([] : List FtpOp)) = (.ok (ctx2, st2), ops) := h
      simp only [Prod.mk.injEq, Except.ok.injEq] at h
      rw [← h.1.1]
      exact hinv
    · rw [if_neg hc] at h
      cases wr with
      | error e =>
          replace h : ((Except.error (translateRaise flushHandlers e) :
              Except Raised (OpenedContext × FSState)),
              [FtpOp.write_file_op ctx.path (ctx.buffer.getD []) 0]) =
              (.ok (ctx2, st2), ops) := h
          simp only [Prod.mk.injEq] at h
          exact absurd h.1 (by simp)
      | ok n =>
          replace h : ((Except.ok ({ ctx with dirty := false },
              { st with meta_cache := cacheInvalidate st.meta_cache ctx.path }) :
              Except Raised (OpenedContext × FSState)),
              [FtpOp.write_file_op ctx.path (ctx.buffer.getD []) 0]) =
              (.ok (ctx2, st2), ops) := h
          simp only [Prod.mk.injEq, Except.ok.injEq] at h
          rw [← h.1.1]
          intro hd
          simp at hd
  · intro ctx rr data off wte ctx2 n ops h hlen
    unfold FTPFileSystem.write at h
    cases hm : materializeBuffer ctx rr with
    | mk fst snd =>
        rw [hm] at h
        cases fst with
        | error e =>
            replace h : ((Except.error e : Except PyExc (OpenedContext × Nat)), snd) =
                (.ok (ctx2, n), ops) := h
            simp only [Prod.mk.injEq] at h
            exact absurd h.1 (by simp)
        | ok buf =>
            have hbuf : buf = startingBuffer ctx rr :=
              materializeBuffer_ok ctx rr buf snd hm
            replace h : ((Except.ok
                ({ ctx with
                     buffer := some
                       (bytesio_write buf (if wte then ctx.file_size else off) data).1
                     file_size :=
                       if (if wte then ctx.file_size else off) +
                            (bytesio_write buf (if wte then ctx.file_size else off) data).2 >
                            ctx.file_size then
                         (if wte then ctx.file_size else off) +
                           (bytesio_write buf (if wte then ctx.file_size else off) data).2
                       else ctx.file_size
                     dirty := true },
                 (bytesio_write buf (if wte then ctx.file_size else off) data).2) :
                 Except PyExc (OpenedContext × Nat)), snd) = (.ok (ctx2, n), ops) := h
            simp only [Prod.mk.injEq, Except.ok.injEq] at h
            rw [← h.1.1]
            intro _
            refine ⟨rfl, ?_⟩
            simp only [Option.getD_some]
            have h2 : (bytesio_write buf (if wte then ctx.file_size else off) data).2 =
                data.length := rfl
            have h3 := bytesio_write_length buf (if wte then ctx.file_size else off) data
            rw [← hbuf] at hlen
            rw [h2, h3, hlen]
            by_cases h4 :
              (if wte = true then ctx.file_size else off) + data.length > ctx.file_size
            · rw [if_pos h4]
              omega
            · rw [if_neg h4]
              omega

/-- C5 amended witness: a write on a handle whose materializing download
returns exactly the recorded three bytes preserves the invariant. -/
theorem C5_handle_invariant_amended_witness :
    handleInvariant
      { OpenedContext.init ['/', 'f'] false 3 128 0 with
          buffer := some [5, 7, 5], dirty := true } :=
  C5_handle_invariant_amended.2.2.2
    (OpenedContext.init ['/', 'f'] false 3 128 0) (.ok [5, 5, 5]) [7] 1 false
    { OpenedContext.init ['/', 'f'] false 3 128 0 with
        buffer := some [5, 7, 5], dirty := true }
    1 [FtpOp.read_file_op ['/', 'f'] 0 none] (by decide) (by decide)

/-! ## String lemmas for the normalizer claims -/

/-- Characterize the absence of backslashes elementwise. -/
theorem noBackslash_iff (s : PyStr) :
    noBackslash s = true ↔ ∀ c ∈ s, c ≠ '\\' := by
  simp [noBackslash, List.all_eq_true]

/-- Replacing backslashes leaves no backslash behind. -/
theorem noBackslash_replace (s : PyStr) :
    noBackslash (replaceBackslashes s) = true := by
  rw [noBackslash_iff]
  intro c hc
  unfold replaceBackslashes at hc
  simp only [List.mem_map] at hc
  obtain ⟨a, _, ha⟩ := hc
  by_cases h : a = '\\'
  · rw [if_pos h] at ha
    rw [← ha]
    decide
  · rw [if_neg h] at ha
    rw [← ha]
    exact h

/-- Replacing backslashes is the identity on a backslash-free string. -/
theorem replace_id_of_noBackslash :
    ∀ (s : PyStr), noBackslash s = true → replaceBackslashes s = s := by
  intro s
  induction s with
  | nil => intro _; rfl
  | cons c t ih =>
      intro h
      rw [noBackslash_iff] at h
      have hc : c ≠ '\\' := h c (by simp)
      have ht : noBackslash t = true := by
        rw [noBackslash_iff]
        intro x hx
        exact h x (by simp [hx])
      simp only [replaceBackslashes, List.map_cons]
      rw [if_neg hc]
      have h2 := ih ht
      simp only [replaceBackslashes] at h2
      rw [h2]

/-- Left-stripping backslashes is the identity on a slash-headed string. -/
theorem lstrip_id_of_startsWithSlash (s : PyStr)
    (h : startsWithSlash s = true) : lstripBackslash s = s := by
  cases s with
  | nil => simp [startsWithSlash] at h
  | cons c t =>
      have hc : c = '/' := by
        unfold startsWithSlash at h
        exact of_decide_eq_true h
      unfold lstripBackslash
      rw [List.dropWhile_cons, if_neg (by simp [hc])]

/-- Dropping leading slashes leaves a list that does not begin with one. -/
theorem dropWhileSlash_not_starts (x : PyStr) :
    startsWithSlash (x.dropWhile (fun c => c = '/')) = false := by
  induction x with
  | nil => rfl
  | cons c t ih =>
      rw [List.dropWhile_cons]
      by_cases hc : c = '/'
      · rw [if_pos (by simp [hc])]
        exact ih
      · rw [if_neg (by simp [hc])]
        unfold startsWithSlash
        exact decide_eq_false hc

/-- Right-stripping slashes leaves a string with no trailing slash. -/
theorem rstripSlash_not_ends (l : PyStr) :
    endsWithSlash (rstripSlash l) = false := by
  unfold endsWithSlash rstripSlash
  rw [List.reverse_reverse]
  exact dropWhileSlash_not_starts l.reverse

/-- What dropWhile keeps is a suffix of the input. -/
theorem dropWhile_append_of (p : Char → Bool) :
    ∀ (x : PyStr), ∃ s, s ++ x.dropWhile p = x := by
  intro x
  induction x with
  | nil => exact ⟨[], rfl⟩
  | cons a t ih =>
      rw [List.dropWhile_cons]
      by_cases hp : p a = true
      · rw [if_pos hp]
        obtain ⟨s, hs⟩ := ih
        exact ⟨a :: s, by rw [List.cons_append, hs]⟩
      · rw [if_neg hp]
        exact ⟨[], rfl⟩

/-- Right-stripping keeps an initial segment of the input. -/
theorem rstripSlash_initial (l : PyStr) : ∃ t, rstripSlash l ++ t = l := by
  obtain ⟨s, hs⟩ := dropWhile_append_of (fun c => c = '/') l.reverse
  refine ⟨s.reverse, ?_⟩
  unfold rstripSlash
  rw [← List.reverse_append, hs, List.reverse_reverse]

/-- Right-stripping a slash-headed string yields the empty string or a
slash-headed string. -/
theorem rstripSlash_starts (l : PyStr) (h : startsWithSlash l = true) :
    rstripSlash l = [] ∨ startsWithSlash (rstripSlash l) = true := by
  cases hl : rstripSlash l with
  | nil => exact Or.inl rfl
  | cons c r =>
      right
      obtain ⟨t, ht⟩ := rstripSlash_initial l
      rw [hl] at ht
      cases l with
      | nil => simp at ht
      | cons c2 t2 =>
          have hc : c = c2 := by
            rw [List.cons_append] at ht
            injection ht with h1 _
          unfold startsWithSlash at h ⊢
          rw [hc]
          exact h

/-- Membership is preserved from dropWhile back to the input. -/
theorem mem_of_mem_dropWhile_char (p : Char → Bool) :
    ∀ (x : PyStr) (c : Char), c ∈ x.dropWhile p → c ∈ x := by
  intro x
  induction x with
  | nil => intro c hc; exact hc
  | cons a t ih =>
      intro c hc
      rw [List.dropWhile_cons] at hc
      by_cases hp : p a = true
      · rw [if_pos hp] at hc
        exact List.mem_cons_of_mem a (ih c hc)
      · rw [if_neg hp] at hc
        exact hc

/-- Right-stripping slashes preserves freedom from backslashes. -/
theorem noBackslash_rstrip (l : PyStr) (h : noBackslash l = true) :
    noBackslash (rstripSlash l) = true := by
  rw [noBackslash_iff] at h ⊢
  intro c hc
  unfold rstripSlash at hc
  rw [List.mem_reverse] at hc
  have := mem_of_mem_dropWhile_char (fun c => c = '/') l.reverse c hc
  rw [List.mem_reverse] at this
  exact h c this

/-- Freedom from backslashes survives left-stripping. -/
theorem noBackslash_lstrip (l : PyStr) (h : noBackslash l = true) :
    noBackslash (lstripBackslash l) = true := by
  rw [noBackslash_iff] at h ⊢
  intro c hc
  exact h c (mem_of_mem_dropWhile_char (fun c => c = '\\') l c hc)

/-- The translator path converter always yields a slash-headed string. -/
theorem to_ftp_path_starts (s : PyStr) :
    startsWithSlash (to_ftp_path s) = true := by
  simp only [to_ftp_path]
  by_cases h : replaceBackslashes (lstripBackslash s) = []
  · rw [if_pos h]
    rfl
  · rw [if_neg h]
    by_cases h2 : startsWithSlash (replaceBackslashes (lstripBackslash s)) = true
    · rw [if_pos h2]
      exact h2
    · rw [if_neg h2]
      rfl

/-- The translator path converter never emits a backslash. -/
theorem to_ftp_path_noBackslash (s : PyStr) :
    noBackslash (to_ftp_path s) = true := by
  simp only [to_ftp_path]
  have hnb := noBackslash_replace (lstripBackslash s)
  by_cases h : replaceBackslashes (lstripBackslash s) = []
  · rw [if_pos h]
    rfl
  · rw [if_neg h]
    by_cases h2 : startsWithSlash (replaceBackslashes (lstripBackslash s)) = true
    · rw [if_pos h2]
      exact hnb
    · rw [if_neg h2]
      rw [noBackslash_iff] at hnb ⊢
      intro c hc
      rcases List.mem_cons.mp hc with h3 | h3
      · rw [h3]
        decide
      · exact hnb c h3

/-- The FTP client normalizer always yields a slash-headed string. -/
theorem ftpclient_normalize_starts (s : PyStr) :
    startsWithSlash (ftpclient_normalize_path s) = true := by
  simp only [ftpclient_normalize_path]
  by_cases h : startsWithSlash (replaceBackslashes s) = true
  · rw [if_pos h]
    exact h
  · rw [if_neg h]
    rfl

/-- The FTP client normalizer never emits a backslash. -/
theorem ftpclient_normalize_noBackslash (s : PyStr) :
    noBackslash (ftpclient_normalize_path s) = true := by
  simp only [ftpclient_normalize_path]
  have hnb := noBackslash_replace s
  by_cases h : startsWithSlash (replaceBackslashes s) = true
  · rw [if_pos h]
    exact hnb
  · rw [if_neg h]
    rw [noBackslash_iff] at hnb ⊢
    intro c hc
    rcases List.mem_cons.mp hc with h3 | h3
    · rw [h3]
      decide
    · exact hnb c h3

/-- After the leading-slash fixup the path cache normalizer holds a
slash-headed, backslash-free intermediate string. -/
theorem pathcache_inter_facts (s : PyStr) :
    startsWithSlash
        (if startsWithSlash (replaceBackslashes s) then replaceBackslashes s
         else '/' :: replaceBackslashes s) = true ∧
    noBackslash
        (if startsWithSlash (replaceBackslashes s) then replaceBackslashes s
         else '/' :: replaceBackslashes s) = true := by
  have hnb := noBackslash_replace s
  by_cases h : startsWithSlash (replaceBackslashes s) = true
  · rw [if_pos h]
    exact ⟨h, hnb⟩
  · rw [if_neg h]
    refine ⟨rfl, ?_⟩
    rw [noBackslash_iff] at hnb ⊢
    intro c hc
    rcases List.mem_cons.mp hc with h3 | h3
    · rw [h3]
      decide
    · exact hnb c h3

/-! ## Claim C6: canonical form of the normalizer outputs -/

/-- C6 counterexample: none of the three normalizers removes a trailing
slash in general or collapses empty segments; the translator converter
and the FTP client normalizer keep a trailing slash, the path cache
normalizer keeps interior double slashes, and on an all-slash input it
even returns the empty string. -/
theorem C6_normalizer_canonical_cex :
    to_ftp_path ['a', '/'] = ['/', 'a', '/'] ∧
    ¬ claimedCanonical (to_ftp_path ['a', '/']) ∧
    ftpclient_normalize_path ['a', '/'] = ['/', 'a', '/'] ∧
    ¬ claimedCanonical (ftpclient_normalize_path ['a', '/']) ∧
    pathcache_normalize_path ['/', 'a', '/', '/', 'b'] =
      ['/', 'a', '/', '/', 'b'] ∧
    ¬ claimedCanonical (pathcache_normalize_path ['/', 'a', '/', '/', 'b']) ∧
    pathcache_normalize_path ['/', '/'] = [] ∧
    ¬ claimedCanonical (pathcache_normalize_path ['/', '/']) := by
  decide

/-- C6 (amended): every normalizer output is free of backslashes; the
translator converter and the FTP client normalizer always begin with a
slash but may keep trailing slashes and empty segments; the path cache
normalizer output begins with a slash unless it is the empty string
(all-slash inputs), never ends with a slash except as the root, and may
keep interior empty segments. -/
theorem C6_normalizer_canonical_amended (s : PyStr) :
    startsWithSlash (to_ftp_path s) = true ∧
    noBackslash (to_ftp_path s) = true ∧
    startsWithSlash (ftpclient_normalize_path s) = true ∧
    noBackslash (ftpclient_normalize_path s) = true ∧
    noBackslash (pathcache_normalize_path s) = true ∧
    (pathcache_normalize_path s = [] ∨
       startsWithSlash (pathcache_normalize_path s) = true) ∧
    (pathcache_normalize_path s = [] ∨
       pathcache_normalize_path s = ['/'] ∨
       endsWithSlash (pathcache_normalize_path s) = false) := by
  obtain ⟨hst, hnb⟩ := pathcache_inter_facts s
  refine ⟨to_ftp_path_starts s, to_ftp_path_noBackslash s,
          ftpclient_normalize_starts s, ftpclient_normalize_noBackslash s,
          ?_, ?_, ?_⟩
  · simp only [pathcache_normalize_path]
    set P2 := if startsWithSlash (replaceBackslashes s) = true
              then replaceBackslashes s
              else '/' :: replaceBackslashes s with hP2
    by_cases hc : P2 ≠ ['/'] ∧ endsWithSlash P2 = true
    · rw [if_pos hc]
      exact noBackslash_rstrip P2 hnb
    · rw [if_neg hc]
      exact hnb
  · simp only [pathcache_normalize_path]
    set P2 := if startsWithSlash (replaceBackslashes s) = true
              then replaceBackslashes s
              else '/' :: replaceBackslashes s with hP2
    by_cases hc : P2 ≠ ['/'] ∧ endsWithSlash P2 = true
    · rw [if_pos hc]
      exact rstripSlash_starts P2 hst
    · rw [if_neg hc]
      exact Or.inr hst
  · simp only [pathcache_normalize_path]
    set P2 := if startsWithSlash (replaceBackslashes s) = true
              then replaceBackslashes s
              else '/' :: replaceBackslashes s with hP2
    by_cases hc : P2 ≠ ['/'] ∧ endsWithSlash P2 = true
    · rw [if_pos hc]
      exact Or.inr (Or.inr (rstripSlash_not_ends P2))
    · rw [if_neg hc]
      by_cases hr : P2 = ['/']
      · exact Or.inr (Or.inl hr)
      · cases hb : endsWithSlash P2 with
        | false => exact Or.inr (Or.inr rfl)
        | true => exact absurd ⟨hr, hb⟩ hc

/-! ## Claim C9: idempotence of the path normalizers -/

/-- C9: both cited path normalizers are idempotent: applied to their own
output they return it unchanged. -/
theorem C9_normalize_idempotent (s : PyStr) :
    to_ftp_path (to_ftp_path s) = to_ftp_path s ∧
    ftpclient_normalize_path (ftpclient_normalize_path s) =
      ftpclient_normalize_path s := by
  constructor
  · have hst := to_ftp_path_starts s
    have hnb := to_ftp_path_noBackslash s
    generalize hg : to_ftp_path s = o
    rw [hg] at hst hnb
    simp only [to_ftp_path]
    rw [lstrip_id_of_startsWithSlash o hst, replace_id_of_noBackslash o hnb]
    have hne : ¬ o = [] := by
      intro h0
      rw [h0] at hst
      simp [startsWithSlash] at hst
    rw [if_neg hne, if_pos hst]
  · have hst := ftpclient_normalize_starts s
    have hnb := ftpclient_normalize_noBackslash s
    generalize hg : ftpclient_normalize_path s = o
    rw [hg] at hst hnb
    simp only [ftpclient_normalize_path]
    rw [replace_id_of_noBackslash o hnb, if_pos hst]
